import Mathlib

/-!
Verification development for the MCP bridge (`src/mcp-bridge/bridge.py`).

The bridge exposes a JSON-RPC-over-HTTP endpoint (`handle_jsonrpc`) and talks
to an upstream FastMCP server over a session-oriented SSE protocol.  This file
shallowly embeds the parts of `bridge.py` that the verified properties are
about: the JSON value model, the SSE frame-decoding loop inside
`handle_jsonrpc` (lines 381-401), the session manager `get_or_create_session`
(lines 60-103, whose `asyncio.Lock` serialises the critical section, so
concurrent callers are modelled as a sequence of atomic acquisitions), and the
whole request path of `handle_jsonrpc` (lines 339-432) with the upstream's
behaviour supplied as explicit inputs.
-/

namespace MCPBridge

/-- JSON values, the model of what Python's `json.loads` produces: `None`,
booleans, numbers (the inputs of interest are integers), strings, lists and
dicts (dicts kept as association lists in parse order; lookups take the last
binding, matching Python dict construction where later duplicate keys win). -/
inductive Json where
  | null : Json
  | bool (b : Bool) : Json
  | num (n : Int) : Json
  | str (s : String) : Json
  | arr (xs : List Json) : Json
  | obj (kvs : List (String × Json)) : Json

/-- `d.get(k)` on a Python dict built by `json.loads`: the value of the last
binding of `k`, or `None` (here `Option.none`) when the key is absent.  On a
non-dict this returns `none`; the call sites in the model that correspond to
Python raising `AttributeError` handle the non-dict case separately. -/
def jsonGet : Json → String → Option Json
  | Json.obj kvs, k => kvs.foldl (fun acc kv => if kv.1 = k then some kv.2 else acc) none
  | _, _ => none

/-- `isinstance(body, dict)`: whether a JSON value is a dict. -/
def Json.isObj : Json → Bool
  | Json.obj _ => true
  | _ => false

/-- The Python comparison `method == "initialize"`, where `method` is
`body.get("method")` (an arbitrary JSON value or `None`): true exactly when it
is the string `"initialize"`. -/
def isInit : Option Json → Bool
  | some (Json.str s) => s = "initialize"
  | _ => false

/-- `isinstance(result, dict) and 'jsonrpc' in result` (bridge.py line 396). -/
def isJsonRpcDict : Json → Bool
  | Json.obj kvs => kvs.any (fun kv => kv.1 = "jsonrpc")
  | _ => false

/-! ## Splitting the accumulated buffer into complete lines

The decode loop runs `while '\n' in buffer: line, buffer = buffer.split('\n', 1)`
(bridge.py lines 386-387).  `splitLines` performs the same decomposition in one
pass: it returns the list of newline-terminated lines (without their
terminators, in order) together with the residual text after the last newline,
which the loop keeps in `buffer` for the next chunk. -/

/-- Decompose a character sequence into its complete (newline-terminated)
lines and the trailing residue after the last newline. -/
def splitLines : List Char → List (List Char) × List Char
  | [] => ([], [])
  | c :: cs =>
    if c = '\n' then
      ([] :: (splitLines cs).1, (splitLines cs).2)
    else
      match splitLines cs with
      | (l :: ls, r) => ((c :: l) :: ls, r)
      | ([], r) => ([], c :: r)

/-- Python `line.strip()`: drop leading and trailing whitespace. -/
def trimChars (l : List Char) : List Char :=
  ((l.dropWhile Char.isWhitespace).reverse.dropWhile Char.isWhitespace).reverse

/-- The SSE data-field prefix `"data: "` (bridge.py line 390). -/
def dataPrefix : List Char := ['d', 'a', 't', 'a', ':', ' ']

/-- The stream-termination sentinel `"[DONE]"` (bridge.py line 392). -/
def doneSentinel : List Char := ['[', 'D', 'O', 'N', 'E', ']']

/-- The body of the per-line processing in the decode loop (bridge.py lines
388-401): strip the line, keep it only if it starts with `"data: "`; strip that
prefix, keep the payload only if non-empty and not `"[DONE]"`; parse it with
`loads` (the model of `json.loads`, a parse failure is skipped non-fatally);
the parsed value is the result only if it is a dict containing `"jsonrpc"`. -/
def qualifyLine (loads : List Char → Option Json) (line : List Char) : Option Json :=
  if List.isPrefixOf dataPrefix (trimChars line) then
    if (trimChars line).drop 6 ≠ [] ∧ (trimChars line).drop 6 ≠ doneSentinel then
      match loads ((trimChars line).drop 6) with
      | some v => if isJsonRpcDict v then some v else none
      | none => none
    else none
  else none

/-- The decode loop of `handle_jsonrpc` (bridge.py lines 381-401) over
already-decoded text chunks: starting from `buf` (the accumulated buffer), add
one chunk at a time, extract the complete lines, and return the first
qualifying value; the residual partial line is carried to the next chunk.
Returns `none` when the stream ends without a qualifying value (the loop falls
through to the error response at lines 404-411). -/
def sseDecode (loads : List Char → Option Json) :
    List Char → List (List Char) → Option Json
  | _, [] => none
  | buf, c :: cs =>
    match (splitLines (buf ++ c)).1.findSome? (qualifyLine loads) with
    | some v => some v
    | none => sseDecode loads (splitLines (buf ++ c)).2 cs

/-- Specification-side restatement of the decoder: join the whole stream,
split it on newlines, and take the first qualifying complete line. -/
def sseDecodeAll (loads : List Char → Option Json) (s : List Char) : Option Json :=
  (splitLines s).1.findSome? (qualifyLine loads)

/-! ## Byte-level chunks

`handle_jsonrpc` iterates `response.aiter_bytes()` and decodes each chunk with
`chunk.decode('utf-8', errors='ignore')` (bridge.py line 383).  Bytes are
modelled as naturals below 256.  `utf8DecodeIgnore` models CPython's UTF-8
decoder with the `ignore` error handler: well-formed sequences decode to their
code point; an invalid or truncated sequence is skipped following the maximal
valid subpart rule (a lead byte with a bad continuation is dropped alone and
decoding resumes at the continuation byte). -/

/-- Whether `b` is a UTF-8 continuation byte `0x80..0xBF`. -/
def isCont (b : Nat) : Bool := 0x80 ≤ b ∧ b ≤ 0xBF

/-- Whether `b2` is a valid second byte for the three-byte lead `b`. -/
def okSecond3 (b b2 : Nat) : Bool :=
  if b = 0xE0 then 0xA0 ≤ b2 ∧ b2 ≤ 0xBF
  else if b = 0xED then 0x80 ≤ b2 ∧ b2 ≤ 0x9F
  else isCont b2

/-- Whether `b2` is a valid second byte for the four-byte lead `b`. -/
def okSecond4 (b b2 : Nat) : Bool :=
  if b = 0xF0 then 0x90 ≤ b2 ∧ b2 ≤ 0xBF
  else if b = 0xF4 then 0x80 ≤ b2 ∧ b2 ≤ 0x8F
  else isCont b2

/-- CPython `bytes.decode('utf-8', errors='ignore')`, fuel-indexed so that
the recursion is structural.  On an invalid sequence the maximal valid subpart
is dropped and decoding resumes at the first byte that did not fit; a sequence
truncated by the end of input is dropped entirely.  The fuel drops by one per
step while each step consumes at least one byte, so `utf8Go l.length l`
processes all of `l`. -/
def utf8Go : Nat → List Nat → List Char
  | 0, _ => []
  | _ + 1, [] => []
  | fuel + 1, b :: bs =>
    if b < 0x80 then Char.ofNat b :: utf8Go fuel bs
    else if 0xC2 ≤ b ∧ b ≤ 0xDF then
      match bs with
      | [] => []
      | b2 :: bs2 =>
        if isCont b2 then
          Char.ofNat ((b - 0xC0) * 64 + (b2 - 0x80)) :: utf8Go fuel bs2
        else utf8Go fuel bs
    else if 0xE0 ≤ b ∧ b ≤ 0xEF then
      match bs with
      | [] => []
      | b2 :: rest2 =>
        if okSecond3 b b2 then
          match rest2 with
          | [] => []
          | b3 :: bs3 =>
            if isCont b3 then
              Char.ofNat ((b - 0xE0) * 4096 + (b2 - 0x80) * 64 + (b3 - 0x80)) ::
                utf8Go fuel bs3
            else utf8Go fuel rest2
        else utf8Go fuel bs
    else if 0xF0 ≤ b ∧ b ≤ 0xF4 then
      match bs with
      | [] => []
      | b2 :: rest2 =>
        if okSecond4 b b2 then
          match rest2 with
          | [] => []
          | b3 :: rest3 =>
            if isCont b3 then
              match rest3 with
              | [] => []
              | b4 :: bs4 =>
                if isCont b4 then
                  Char.ofNat ((b - 0xF0) * 262144 + (b2 - 0x80) * 4096 +
                    (b3 - 0x80) * 64 + (b4 - 0x80)) :: utf8Go fuel bs4
                else utf8Go fuel rest3
            else utf8Go fuel rest2
        else utf8Go fuel bs
    else utf8Go fuel bs

/-- CPython `bytes.decode('utf-8', errors='ignore')` on a byte list. -/
def utf8DecodeIgnore (l : List Nat) : List Char := utf8Go l.length l

/-- The decode loop of `handle_jsonrpc` on the raw byte chunks of
`response.aiter_bytes()`: each chunk is decoded with UTF-8 errors ignored and
fed to the accumulating line decoder. -/
def sseDecodeBytes (loads : List Char → Option Json) (chunks : List (List Nat)) :
    Option Json :=
  sseDecode loads [] (chunks.map utf8DecodeIgnore)

/-! ## A concrete JSON parser standing in for Python's `json.loads`

`json.loads` is library code, not part of this repository; the decoder theorems
are therefore parametric in the parse function.  For evaluating the model on
concrete inputs we supply `jsonLoads`, an executable parser for the JSON
fragment the verified scenarios use: `null`/`true`/`false`, integer numbers,
strings with the single-character escapes, arrays and objects, with
insignificant whitespace; like `json.loads` it fails unless the whole input is
one JSON document. -/

/-- Skip JSON insignificant whitespace. -/
def skipWs : List Char → List Char
  | c :: cs => if c = ' ' ∨ c = '\t' ∨ c = '\n' ∨ c = '\r' then skipWs cs else c :: cs
  | [] => []

/-- Decode one single-character JSON string escape. -/
def escChar (e : Char) : Option Char :=
  if e = '"' ∨ e = '\\' ∨ e = '/' then some e
  else if e = 'n' then some '\n'
  else if e = 't' then some '\t'
  else if e = 'r' then some '\r'
  else if e = 'b' then some (Char.ofNat 8)
  else if e = 'f' then some (Char.ofNat 12)
  else none

/-- Parse the contents of a JSON string after the opening quote, handling the
single-character escapes; yields the decoded characters and the rest of the
input after the closing quote. -/
def parseStringChars : List Char → Option (List Char × List Char)
  | [] => none
  | '"' :: cs => some ([], cs)
  | '\\' :: e :: cs =>
    match escChar e with
    | some d => (parseStringChars cs).map fun p => (d :: p.1, p.2)
    | none => none
  | c :: cs => (parseStringChars cs).map fun p => (c :: p.1, p.2)

/-- Accumulate a run of decimal digits left to right. -/
def parseDigitsAux (acc : Nat) : List Char → Nat × List Char
  | c :: cs =>
    if c.isDigit then parseDigitsAux (acc * 10 + (c.toNat - 48)) cs else (acc, c :: cs)
  | [] => (acc, [])

/-- Parse a nonempty run of decimal digits into a natural number. -/
def parseDigits : List Char → Option (Nat × List Char)
  | c :: cs => if c.isDigit then some (parseDigitsAux (c.toNat - 48) cs) else none
  | [] => none

mutual

/-- Parse one JSON value; `fuel` bounds the nesting depth. -/
def parseVal : Nat → List Char → Option (Json × List Char)
  | 0, _ => none
  | fuel + 1, cs =>
    match skipWs cs with
    | 'n' :: 'u' :: 'l' :: 'l' :: rest => some (Json.null, rest)
    | 't' :: 'r' :: 'u' :: 'e' :: rest => some (Json.bool true, rest)
    | 'f' :: 'a' :: 'l' :: 's' :: 'e' :: rest => some (Json.bool false, rest)
    | '"' :: rest =>
      (parseStringChars rest).map fun p => (Json.str (String.mk p.1), p.2)
    | '[' :: rest =>
      (match skipWs rest with
       | ']' :: rest2 => some (Json.arr [], rest2)
       | other =>
         (parseItems fuel other).map fun p => (Json.arr p.1, p.2))
    | '\x7b' :: rest =>
      (match skipWs rest with
       | '\x7d' :: rest2 => some (Json.obj [], rest2)
       | other =>
         (parseMembers fuel other).map fun p => (Json.obj p.1, p.2))
    | '-' :: rest =>
      (parseDigits rest).bind fun p =>
        match p.2 with
        | '.' :: _ => none
        | 'e' :: _ => none
        | 'E' :: _ => none
        | _ => some (Json.num (-(p.1 : Int)), p.2)
    | c :: rest =>
      if c.isDigit then
        (parseDigits (c :: rest)).bind fun p =>
          match p.2 with
          | '.' :: _ => none
          | 'e' :: _ => none
          | 'E' :: _ => none
          | _ => some (Json.num (p.1 : Int), p.2)
      else none
    | [] => none

/-- Parse the comma-separated items of a JSON array up to `]`. -/
def parseItems : Nat → List Char → Option (List Json × List Char)
  | 0, _ => none
  | fuel + 1, cs =>
    (parseVal fuel cs).bind fun p =>
      match skipWs p.2 with
      | ',' :: rest =>
        (parseItems fuel rest).map fun q => (p.1 :: q.1, q.2)
      | ']' :: rest => some ([p.1], rest)
      | _ => none

/-- Parse the comma-separated members of a JSON object up to the closing
brace. -/
def parseMembers : Nat → List Char → Option (List (String × Json) × List Char)
  | 0, _ => none
  | fuel + 1, cs =>
    match skipWs cs with
    | '"' :: rest =>
      (parseStringChars rest).bind fun k =>
        match skipWs k.2 with
        | ':' :: rest2 =>
          (parseVal fuel rest2).bind fun v =>
            match skipWs v.2 with
            | ',' :: rest3 =>
              (parseMembers fuel rest3).map fun q =>
                ((String.mk k.1, v.1) :: q.1, q.2)
            | '\x7d' :: rest3 => some ([(String.mk k.1, v.1)], rest3)
            | _ => none
        | _ => none
    | _ => none

end

/-- The model of `json.loads` over a character sequence: parse one JSON value
and require only trailing whitespace after it. -/
def jsonLoads (s : List Char) : Option Json :=
  match parseVal (s.length + 1) s with
  | some (v, rest) => if skipWs rest = [] then some v else none
  | none => none

/-! ## Session manager (`get_or_create_session`, bridge.py lines 60-103)

The upstream's behaviour is an explicit input.  An upstream HTTP answer is a
status, the value of its `mcp-session-id` response header, and the byte chunks
of its body; `Except.error` on the input models an `httpx` transport error
raised while making the call. -/

/-- An upstream HTTP response as the bridge observes it. -/
structure UpstreamResp where
  status : Nat
  sessionHeader : Option String
  chunks : List (List Nat)

/-- The Python exceptions the bridge distinguishes: `httpx.HTTPStatusError`
(raised by `response.raise_for_status()`) versus every other exception. -/
inductive Exn where
  | httpStatusError (msg : String)
  | other (msg : String)

/-- Model of `str(e)` for the `httpx.HTTPStatusError` raised by
`raise_for_status` on a response with the given status code. -/
def statusErrMsg (status : Nat) : String :=
  "HTTP status " ++ toString status

/-- Whether `raise_for_status` passes: a 2xx status (redirects are followed by
the client, so the observed final status is what is checked). -/
def is2xx (status : Nat) : Bool := 200 ≤ status ∧ status < 300

/-- One lock-guarded execution of `get_or_create_session` (bridge.py lines
60-103).  `hs` is the upstream's answer to the handshake POST, used only when
the handshake is actually performed.  Returns the Python result (the token, or
the exception that propagates), the new value of the global `session_id`, and
whether a handshake POST was performed.  When the token is already set it is
returned as-is with no handshake; on a fresh handshake the token comes from
the `mcp-session-id` response header, falling back to `"default-session"` when
the header is absent or empty (Python truthiness of `session_id` at line 97);
`raise_for_status` failures and transport errors leave the token unset. -/
def get_or_create_session (hs : Except String UpstreamResp) (st : Option String) :
    Except Exn String × Option String × Bool :=
  match st with
  | some tok => (Except.ok tok, some tok, false)
  | none =>
    match hs with
    | Except.error e => (Except.error (Exn.other e), none, true)
    | Except.ok r =>
      if is2xx r.status then
        let tok :=
          match r.sessionHeader with
          | some h => if h = "" then "default-session" else h
          | none => "default-session"
        (Except.ok tok, some tok, true)
      else
        (Except.error (Exn.httpStatusError (statusErrMsg r.status)), none, true)

/-- N callers of `get_or_create_session` serialised by `session_lock`: the
i-th caller would receive `envs[i]` as the upstream handshake answer were it to
perform the handshake.  Returns each caller's result, the final token state,
and the total number of handshake POSTs performed. -/
def runSessionCallers (st : Option String) :
    List (Except String UpstreamResp) → List (Except Exn String) × Option String × Nat
  | [] => ([], st, 0)
  | env :: envs =>
    let r := get_or_create_session env st
    let rest := runSessionCallers r.2.1 envs
    (r.1 :: rest.1, rest.2.1, (if r.2.2 then 1 else 0) + rest.2.2)

/-- The token a successful fresh handshake yields, given the upstream
response. -/
def tokenFromResp (r : UpstreamResp) : String :=
  match r.sessionHeader with
  | some h => if h = "" then "default-session" else h
  | none => "default-session"

/-! ## The gateway (`handle_jsonrpc`, bridge.py lines 339-432)

The function is modelled with its environment as explicit inputs: the outcome
of `await request.json()` (`Except.error` models a JSON parse failure), the
value of the global `session_id` on entry, the upstream's answer to a
handshake POST (if one happens), and the upstream's answer to the forwarded
POST `/mcp` call.  The model also records the final value of `session_id` and,
when the forwarded call is issued, the `mcp-session-id` header it carries, so
that header and state properties can be stated. -/

/-- What `handle_jsonrpc` does at the transport boundary: return an HTTP
response, or let an exception escape (`JSONResponse` is a status code plus a
JSON body). -/
inductive PyOutcome where
  | response (status : Nat) (body : Json)
  | raised (msg : String)

/-- Full observable trace of one `handle_jsonrpc` call. -/
structure CallTrace where
  outcome : PyOutcome
  finalSession : Option String
  forwardedHeader : Option (Option String)

/-- The model of `str(e)` for the `AttributeError` raised by calling `.get` on
a parsed body that is not a dict. -/
def pyAttrErrMsg : String := "AttributeError: object has no attribute get"

/-- The gateway's synthesized JSON-RPC error envelope (bridge.py lines
404-411, 415-422, 425-432): code `-32603` with the given id and message. -/
def errEnvelope (idj : Json) (msg : String) : Json :=
  Json.obj [("jsonrpc", Json.str "2.0"), ("id", idj),
    ("error", Json.obj [("code", Json.num (-32603)), ("message", Json.str msg)])]

/-- The gateway's success envelope for a notification ack (bridge.py lines
373-377). -/
def okEnvelope (idj : Json) (res : Json) : Json :=
  Json.obj [("jsonrpc", Json.str "2.0"), ("id", idj), ("result", res)]

/-- The message of the decode-exhaustion error (bridge.py line 409). -/
def exhaustMsg : String := "No valid JSON-RPC response found in SSE stream"

/-- Convert an exception caught at the gateway boundary to the corresponding
error response: `httpx.HTTPStatusError` is reported as "FastMCP server error:
..." (lines 413-422), any other exception as "Internal error: ..." (lines
423-432). -/
def exnResponse (ex : Exn) (reqId : Json) : PyOutcome :=
  match ex with
  | Exn.httpStatusError m => PyOutcome.response 500 (errEnvelope reqId ("FastMCP server error: " ++ m))
  | Exn.other m => PyOutcome.response 500 (errEnvelope reqId ("Internal error: " ++ m))

/-- The session-acquisition step of the gateway (bridge.py lines 350-351): for
a non-"initialize" method run `get_or_create_session`, otherwise skip it.
Returns the Python outcome together with the resulting `session_id` value. -/
def sessionPhase (method : Option Json) (hs : Except String UpstreamResp)
    (st : Option String) : Except Exn (Option String) × Option String :=
  if isInit method then (Except.ok st, st)
  else
    match get_or_create_session hs st with
    | (Except.ok _, st2, _) => (Except.ok st2, st2)
    | (Except.error e, st2, _) => (Except.error e, st2)

/-- The `mcp-session-id` header attached to the forwarded call (bridge.py
lines 362-364): present exactly when the global `session_id` is truthy. -/
def sessionHeaderOf : Option String → Option String
  | some s => if s = "" then none else some s
  | none => none

/-- The forwarding phase of `handle_jsonrpc` (bridge.py lines 353-411) after a
session has been acquired (or skipped for `initialize`): issue the streamed
POST carrying the session header; a transport error or `raise_for_status`
failure is caught at the gateway boundary; a 202 answers the notification ack
without touching the body; any other 2xx enters the decode loop, and decode
exhaustion produces the synthetic error (lines 404-411). -/
def forwardPhase (loads : List Char → Option Json) (reqId : Json)
    (stAcq st2 : Option String) (ms : Except String UpstreamResp) : CallTrace :=
  match ms with
  | Except.error e =>
    { outcome := PyOutcome.response 500 (errEnvelope reqId ("Internal error: " ++ e)),
      finalSession := st2, forwardedHeader := some (sessionHeaderOf stAcq) }
  | Except.ok r =>
    if is2xx r.status then
      if r.status = 202 then
        { outcome := PyOutcome.response 200 (okEnvelope reqId (Json.obj [])),
          finalSession := st2, forwardedHeader := some (sessionHeaderOf stAcq) }
      else
        match sseDecodeBytes loads r.chunks with
        | some v =>
          { outcome := PyOutcome.response 200 v,
            finalSession := st2, forwardedHeader := some (sessionHeaderOf stAcq) }
        | none =>
          { outcome := PyOutcome.response 500 (errEnvelope reqId exhaustMsg),
            finalSession := st2, forwardedHeader := some (sessionHeaderOf stAcq) }
    else
      { outcome := exnResponse (Exn.httpStatusError (statusErrMsg r.status)) reqId,
        finalSession := st2, forwardedHeader := some (sessionHeaderOf stAcq) }

/-- The model of `handle_jsonrpc` (bridge.py lines 339-432).  `loads` stands
for `json.loads` inside the SSE decode loop; `inbound` is the outcome of
`await request.json()`; `st` is the global `session_id` on entry; `hs` and
`ms` are the upstream's answers to the handshake POST and to the forwarded
POST respectively (`Except.error` = transport error). -/
def handle_jsonrpc (loads : List Char → Option Json) (inbound : Except String Json)
    (st : Option String) (hs : Except String UpstreamResp)
    (ms : Except String UpstreamResp) : CallTrace :=
  match inbound with
  | Except.error e =>
    -- `request.json()` raised before `body` was bound: the generic handler
    -- answers with id `null`.
    { outcome := PyOutcome.response 500 (errEnvelope Json.null ("Internal error: " ++ e)),
      finalSession := st, forwardedHeader := none }
  | Except.ok body =>
    if body.isObj then
      match sessionPhase (jsonGet body "method") hs st with
      | (Except.error ex, st2) =>
        -- the handshake raised; caught at the gateway boundary
        { outcome := exnResponse ex ((jsonGet body "id").getD Json.null),
          finalSession := st2, forwardedHeader := none }
      | (Except.ok stAcq, st2) =>
        forwardPhase loads ((jsonGet body "id").getD Json.null) stAcq st2 ms
    else
      -- `body.get("method")` raises `AttributeError`; the generic handler then
      -- evaluates `body.get("id")`, which raises again, so the exception
      -- escapes `handle_jsonrpc` uncaught.
      { outcome := PyOutcome.raised pyAttrErrMsg, finalSession := st, forwardedHeader := none }

/-- The id the gateway's own envelopes carry: `null` when the inbound body
did not parse, else `body.get("id")` with `None` rendered as JSON `null`. -/
def inboundIdJson : Except String Json → Json
  | Except.error _ => Json.null
  | Except.ok b => (jsonGet b "id").getD Json.null

/-! ## Lemmas about the line splitter and the decode loop -/

/-- Splitting a concatenation: the complete lines of `a` come first, and the
residue of `a` is prepended to `b` before splitting the rest. -/
theorem splitLines_append (a b : List Char) :
    splitLines (a ++ b) =
      ((splitLines a).1 ++ (splitLines ((splitLines a).2 ++ b)).1,
       (splitLines ((splitLines a).2 ++ b)).2) := by
  induction a with
  | nil => simp [splitLines]
  | cons c a ih =>
    by_cases hc : c = '\n'
    · subst hc
      rw [List.cons_append, splitLines, if_pos rfl, ih]
      conv_rhs => rw [splitLines, if_pos rfl]
      simp
    · rw [List.cons_append, splitLines, if_neg hc, ih]
      conv_rhs => rw [splitLines, if_neg hc]
      rcases h : splitLines a with ⟨ls, r⟩
      rcases ls with - | ⟨l, ls⟩
      · simp only
        rcases h2 : splitLines (r ++ b) with ⟨ls2, r2⟩
        rcases ls2 with - | ⟨l2, ls2⟩
        · simp only [List.nil_append]
          conv_rhs => rw [List.cons_append, splitLines, if_neg hc, h2]
        · simp only [List.nil_append]
          conv_rhs => rw [List.cons_append, splitLines, if_neg hc, h2]
      · simp

/-- The residue of a split contains no newline. -/
theorem residue_no_newline (l : List Char) : '\n' ∉ (splitLines l).2 := by
  induction l with
  | nil => simp [splitLines]
  | cons c cs ih =>
    by_cases hc : c = '\n'
    · subst hc
      rw [splitLines, if_pos rfl]
      exact ih
    · rw [splitLines, if_neg hc]
      rcases h : splitLines cs with ⟨ls, r⟩
      rw [h] at ih
      rcases ls with - | ⟨l0, ls⟩
      · simp only [List.mem_cons, not_or]
        exact ⟨fun he => hc he.symm, ih⟩
      · exact ih

/-- A newline-free text splits into no complete line and itself as residue. -/
theorem splitLines_no_newline (l : List Char) (h : '\n' ∉ l) :
    splitLines l = ([], l) := by
  induction l with
  | nil => simp [splitLines]
  | cons c cs ih =>
    simp only [List.mem_cons, not_or] at h
    rcases h with ⟨hc, hcs⟩
    rw [splitLines, if_neg (fun he => hc he.symm), ih hcs]

/-- The stateful decode loop equals the whole-stream restatement: starting
from a newline-free buffer, feeding the chunks one at a time yields exactly
the first qualifying complete line of the joined text. -/
theorem sseDecode_eq_all (loads : List Char → Option Json)
    (chunks : List (List Char)) (buf : List Char) (hb : '\n' ∉ buf) :
    sseDecode loads buf chunks = sseDecodeAll loads (buf ++ chunks.flatten) := by
  induction chunks generalizing buf with
  | nil =>
    simp [sseDecode, sseDecodeAll, splitLines_no_newline buf hb]
  | cons c cs ih =>
    have hsplit := splitLines_append (buf ++ c) cs.flatten
    rw [sseDecode, sseDecodeAll, List.flatten_cons, ← List.append_assoc, hsplit]
    simp only [List.findSome?_append]
    rcases hfs : (splitLines (buf ++ c)).1.findSome? (qualifyLine loads) with - | v
    · have := ih (splitLines (buf ++ c)).2 (residue_no_newline (buf ++ c))
      rw [sseDecodeAll] at this
      simp only [this, Option.or]
    · simp only [Option.or]

/-- A qualifying line's value is a dict containing the `"jsonrpc"` key. -/
theorem qualifyLine_sound (loads : List Char → Option Json) (line : List Char)
    (v : Json) (h : qualifyLine loads line = some v) : isJsonRpcDict v = true := by
  unfold qualifyLine at h
  split at h
  · split at h
    · split at h
      · split at h
        · rename_i hq
          cases h
          exact hq
        · simp at h
      · simp at h
    · simp at h
  · simp at h

/-- Whatever the decode loop returns is a dict containing `"jsonrpc"`. -/
theorem sseDecode_sound (loads : List Char → Option Json)
    (chunks : List (List Char)) (buf : List Char) (v : Json)
    (h : sseDecode loads buf chunks = some v) : isJsonRpcDict v = true := by
  induction chunks generalizing buf with
  | nil => simp [sseDecode] at h
  | cons c cs ih =>
    rw [sseDecode] at h
    rcases hfs : (splitLines (buf ++ c)).1.findSome? (qualifyLine loads) with - | w
    · rw [hfs] at h
      simp only at h
      exact ih _ h
    · rw [hfs] at h
      simp only [Option.some.injEq] at h
      subst h
      obtain ⟨l, -, hl⟩ := List.exists_of_findSome?_eq_some hfs
      exact qualifyLine_sound loads l _ hl

/-- Early exit: once the loop has produced a value from a chunk prefix, any
further chunks are never read and the value is unchanged. -/
theorem sseDecode_early_exit (loads : List Char → Option Json)
    (chunks more : List (List Char)) (buf : List Char) (v : Json)
    (h : sseDecode loads buf chunks = some v) :
    sseDecode loads buf (chunks ++ more) = some v := by
  induction chunks generalizing buf with
  | nil => simp [sseDecode] at h
  | cons c cs ih =>
    rw [sseDecode] at h
    rw [List.cons_append, sseDecode]
    rcases hfs : (splitLines (buf ++ c)).1.findSome? (qualifyLine loads) with - | w
    · rw [hfs] at h
      simp only at h ⊢
      exact ih _ h
    · rw [hfs] at h
      exact h

/-! ## Lemmas about the byte level, the session manager and the messages -/

/-- On ASCII-only input the decoder maps each byte to its character. -/
theorem utf8Go_ascii (fuel : Nat) (l : List Nat) (ha : ∀ x ∈ l, x < 128) :
    utf8Go fuel l = (l.take fuel).map (fun b => Char.ofNat b) := by
  induction fuel generalizing l with
  | zero => simp [utf8Go]
  | succ fuel ih =>
    cases l with
    | nil => simp [utf8Go]
    | cons x xs =>
      have hx : x < 128 := ha x (by simp)
      rw [utf8Go.eq_def]
      simp only [if_pos hx, ih xs (fun y hy => ha y (by simp [hy]))]
      simp

/-- On an ASCII-only byte list, UTF-8 decoding is the per-byte map. -/
theorem utf8DecodeIgnore_ascii (l : List Nat) (ha : ∀ x ∈ l, x < 128) :
    utf8DecodeIgnore l = l.map (fun b => Char.ofNat b) := by
  rw [utf8DecodeIgnore, utf8Go_ascii l.length l ha, List.take_length]

/-- For an ASCII-only stream, decoding the chunks separately and joining is
the same as decoding the joined bytes. -/
theorem flatten_map_utf8_ascii (chunks : List (List Nat))
    (h : ∀ x ∈ chunks.flatten, x < 128) :
    (chunks.map utf8DecodeIgnore).flatten = utf8DecodeIgnore chunks.flatten := by
  induction chunks with
  | nil => simp [utf8DecodeIgnore, utf8Go]
  | cons c cs ih =>
    have hc : ∀ x ∈ c, x < 128 := fun x hx => h x (by simp [hx])
    have hcs : ∀ x ∈ cs.flatten, x < 128 := fun x hx => h x (by simp [hx])
    have hall : ∀ x ∈ c ++ cs.flatten, x < 128 := by
      intro x hx
      rcases List.mem_append.mp hx with h1 | h2
      · exact hc x h1
      · exact hcs x h2
    rw [List.map_cons, List.flatten_cons, List.flatten_cons, ih hcs,
      utf8DecodeIgnore_ascii c hc, utf8DecodeIgnore_ascii cs.flatten hcs,
      utf8DecodeIgnore_ascii (c ++ cs.flatten) hall, List.map_append]

/-- The token produced by a successful fresh handshake is never the empty
string (Python truthiness guarantees the `"default-session"` fallback). -/
theorem tokenFromResp_ne_empty (r : UpstreamResp) : tokenFromResp r ≠ "" := by
  rcases r with ⟨s, hdr, ch⟩
  rcases hdr with - | h
  · simp only [tokenFromResp]
    decide
  · simp only [tokenFromResp]
    by_cases he : h = ""
    · rw [if_pos he]
      decide
    · rw [if_neg he]
      exact he

/-- Once the token is set, every further caller gets it back unchanged with no
handshake performed. -/
theorem runSessionCallers_set (tok : String) (envs : List (Except String UpstreamResp)) :
    runSessionCallers (some tok) envs =
      (List.replicate envs.length (Except.ok tok), some tok, 0) := by
  induction envs with
  | nil => simp [runSessionCallers]
  | cons e es ih =>
    simp [runSessionCallers, get_or_create_session, ih, List.replicate]

/-- The decode-exhaustion message is not an upstream-status failure message. -/
theorem exhaustMsg_ne_status (m : String) :
    exhaustMsg ≠ "FastMCP server error: " ++ m := by
  intro h
  have hd := congrArg String.data h
  rw [String.data_append] at hd
  have h2 : some 'N' = some 'F' := congrArg List.head? hd
  exact absurd h2 (by decide)

/-- The decode-exhaustion message is not a transport failure message. -/
theorem exhaustMsg_ne_internal (m : String) :
    exhaustMsg ≠ "Internal error: " ++ m := by
  intro h
  have hd := congrArg String.data h
  rw [String.data_append] at hd
  have h2 : some 'N' = some 'I' := congrArg List.head? hd
  exact absurd h2 (by decide)

/-- A successful `get_or_create_session` leaves the global set to exactly the
returned token. -/
theorem get_or_create_ok_state (hs : Except String UpstreamResp) (st : Option String)
    (tok : String) (st2 : Option String) (p : Bool)
    (h : get_or_create_session hs st = (Except.ok tok, st2, p)) : st2 = some tok := by
  rcases st with - | t
  · rcases hs with e | r
    · simp [get_or_create_session] at h
    · simp only [get_or_create_session] at h
      by_cases h2 : is2xx r.status
      · rw [if_pos h2] at h
        simp only [Prod.mk.injEq, Except.ok.injEq] at h
        rw [← h.2.1, h.1]
      · rw [if_neg h2] at h
        simp at h
  · simp only [get_or_create_session, Prod.mk.injEq, Except.ok.injEq] at h
    rw [← h.2.1, h.1]

/-- A fresh successful handshake returns the token read from the response. -/
theorem get_or_create_fresh (r : UpstreamResp) (h2 : is2xx r.status = true) :
    get_or_create_session (Except.ok r) none =
      (Except.ok (tokenFromResp r), some (tokenFromResp r), true) := by
  simp only [get_or_create_session, if_pos h2, tokenFromResp]

/-- The forwarded call always records the session header derived from the
acquired state. -/
theorem forwardPhase_header (loads : List Char → Option Json) (reqId : Json)
    (stAcq st2 : Option String) (ms : Except String UpstreamResp) :
    (forwardPhase loads reqId stAcq st2 ms).forwardedHeader =
      some (sessionHeaderOf stAcq) := by
  rcases ms with e | r
  · rfl
  · rw [forwardPhase]
    split
    · split
      · rfl
      · split <;> rfl
    · rfl

/-- The forwarding phase never changes the stored session token. -/
theorem forwardPhase_finalSession (loads : List Char → Option Json) (reqId : Json)
    (stAcq st2 : Option String) (ms : Except String UpstreamResp) :
    (forwardPhase loads reqId stAcq st2 ms).finalSession = st2 := by
  rcases ms with e | r
  · rfl
  · rw [forwardPhase]
    split
    · split
      · rfl
      · split <;> rfl
    · rfl

/-! ## The claims -/

/-- C1: the session handshake is single-flight and the token is write-once.
If the token is already set, `get_or_create_session` returns it without a
handshake and without changing it; and when N callers run (serialised by
`session_lock`) starting from an unset token and the first handshake succeeds,
exactly one handshake is performed, all N callers receive the identical token,
and the stored token is that token ever after. -/
theorem claim_C1_single_flight :
    (∀ (hs : Except String UpstreamResp) (tok : String),
      get_or_create_session hs (some tok) = (Except.ok tok, some tok, false)) ∧
    (∀ (r : UpstreamResp) (envs : List (Except String UpstreamResp)),
      is2xx r.status = true →
      runSessionCallers none (Except.ok r :: envs) =
        (List.replicate (envs.length + 1) (Except.ok (tokenFromResp r)),
         some (tokenFromResp r), 1)) := by
  constructor
  · intro hs tok
    rfl
  · intro r envs h2
    rw [runSessionCallers]
    simp only [get_or_create_fresh r h2, runSessionCallers_set]
    simp [List.replicate]

/-- Closed witness for C1: three concurrent callers, where only the first
caller's would-be handshake succeeds, all get the token `"sess-1"` from a
single handshake, and the token stays set. -/
theorem claim_C1_single_flight_witness :
    is2xx (200 : Nat) = true ∧
    runSessionCallers none
        [Except.ok ⟨200, some "sess-1", []⟩, Except.ok ⟨500, none, []⟩,
         Except.error "connection refused"] =
      ([Except.ok "sess-1", Except.ok "sess-1", Except.ok "sess-1"],
       some "sess-1", 1) := by
  refine ⟨rfl, ?_⟩
  have h := claim_C1_single_flight.2 ⟨200, some "sess-1", []⟩
    [Except.ok ⟨500, none, []⟩, Except.error "connection refused"] rfl
  simpa using h

/-- C7: handshake failure is atomic.  A transport error or a non-2xx status
during the handshake propagates as an error to the triggering caller, the
stored token remains `none`, and a subsequent caller performs the handshake
again (and can succeed). -/
theorem claim_C7_handshake_atomic :
    (∀ e : String, get_or_create_session (Except.error e) none =
      (Except.error (Exn.other e), none, true)) ∧
    (∀ r : UpstreamResp, is2xx r.status = false →
      get_or_create_session (Except.ok r) none =
        (Except.error (Exn.httpStatusError (statusErrMsg r.status)), none, true)) ∧
    (∀ (e : String) (r : UpstreamResp), is2xx r.status = true →
      runSessionCallers none [Except.error e, Except.ok r] =
        ([Except.error (Exn.other e), Except.ok (tokenFromResp r)],
         some (tokenFromResp r), 2)) := by
  refine ⟨fun e => rfl, fun r h2 => ?_, fun e r h2 => ?_⟩
  · simp only [get_or_create_session]
    rw [if_neg (by simp [h2] : ¬ is2xx r.status = true)]
  · rw [runSessionCallers]
    simp only [get_or_create_session]
    rw [runSessionCallers]
    simp only [get_or_create_fresh r h2, runSessionCallers_set]
    simp

/-- Closed witness for C7: a 503 handshake fails leaving the token unset, and
the next caller retries and succeeds. -/
theorem claim_C7_handshake_atomic_witness :
    is2xx (503 : Nat) = false ∧
    get_or_create_session (Except.ok ⟨503, some "ignored", []⟩) none =
      (Except.error (Exn.httpStatusError (statusErrMsg 503)), none, true) ∧
    runSessionCallers none [Except.error "timeout", Except.ok ⟨200, none, []⟩] =
      ([Except.error (Exn.other "timeout"), Except.ok "default-session"],
       some "default-session", 2) := by
  refine ⟨rfl, claim_C7_handshake_atomic.2.1 ⟨503, some "ignored", []⟩ rfl, ?_⟩
  have h := claim_C7_handshake_atomic.2.2 "timeout" ⟨200, none, []⟩ rfl
  simpa using h

/-- C3: the SSE decode loop returns the first value obtained by splitting the
accumulated stream on newlines, stripping each line, keeping only lines with
the `"data: "` prefix whose payload is non-empty and not `"[DONE]"`, that
parses as a JSON dict containing `"jsonrpc"` (parse failures and
non-qualifying parses are skipped non-fatally); decoding stops at that value
immediately, never reading further chunks, and the gateway returns the decoded
object unchanged with HTTP 200. -/
theorem claim_C3_first_qualifying (loads : List Char → Option Json)
    (chunks : List (List Nat)) :
    sseDecodeBytes loads chunks =
      (splitLines (chunks.map utf8DecodeIgnore).flatten).1.findSome? (qualifyLine loads) ∧
    (∀ (v : Json) (more : List (List Nat)), sseDecodeBytes loads chunks = some v →
      sseDecodeBytes loads (chunks ++ more) = some v) ∧
    (∀ (body : Json) (st stAcq st2 : Option String) (hs : Except String UpstreamResp)
       (r : UpstreamResp) (v : Json),
      body.isObj = true →
      sessionPhase (jsonGet body "method") hs st = (Except.ok stAcq, st2) →
      is2xx r.status = true → r.status ≠ 202 →
      sseDecodeBytes loads r.chunks = some v →
      (handle_jsonrpc loads (Except.ok body) st hs (Except.ok r)).outcome =
        PyOutcome.response 200 v) := by
  refine ⟨?_, ?_, ?_⟩
  · rw [sseDecodeBytes, sseDecode_eq_all loads _ [] (by simp), sseDecodeAll,
      List.nil_append]
  · intro v more h
    rw [sseDecodeBytes, List.map_append]
    exact sseDecode_early_exit loads _ _ [] v h
  · intro body st stAcq st2 hs r v hobj hsp h2 h202 hdec
    simp [handle_jsonrpc, hobj, hsp, forwardPhase, h2, h202, hdec]

/-- The round-trip example for C3: the inbound id-7 `tools/list` request. -/
def exampleInbound7 : Json :=
  Json.obj [("jsonrpc", Json.str "2.0"), ("id", Json.num 7),
    ("method", Json.str "tools/list"), ("params", Json.obj [])]

/-- The SSE stream bytes of C3's round-trip example. -/
def exampleStream7 : List Nat :=
  "data: \x7b\"jsonrpc\":\"2.0\",\"id\":7,\"result\":\x7b\"tools\":[]\x7d\x7d\n".data.map
    Char.toNat

/-- The JSON object C3's round-trip example decodes to. -/
def exampleObj7 : Json :=
  Json.obj [("jsonrpc", Json.str "2.0"), ("id", Json.num 7),
    ("result", Json.obj [("tools", Json.arr [])])]

/-- Closed witness for C3: the round-trip example decodes to exactly the
streamed object, further chunks do not change the result, and the gateway
returns it unchanged with HTTP 200. -/
theorem claim_C3_first_qualifying_witness :
    sseDecodeBytes jsonLoads [exampleStream7] = some exampleObj7 ∧
    sseDecodeBytes jsonLoads ([exampleStream7] ++ ["ignored garbage".data.map Char.toNat]) =
      some exampleObj7 ∧
    (handle_jsonrpc jsonLoads (Except.ok exampleInbound7) (some "sess-1")
        (Except.error "unused") (Except.ok ⟨200, none, [exampleStream7]⟩)).outcome =
      PyOutcome.response 200 exampleObj7 := by
  refine ⟨rfl, ?_, ?_⟩
  · exact (claim_C3_first_qualifying jsonLoads [exampleStream7]).2.1 exampleObj7
      ["ignored garbage".data.map Char.toNat] rfl
  · exact (claim_C3_first_qualifying jsonLoads [exampleStream7]).2.2 exampleInbound7
      (some "sess-1") (some "sess-1") (some "sess-1") (Except.error "unused")
      ⟨200, none, [exampleStream7]⟩ exampleObj7 rfl rfl rfl (by decide) rfl

/-- C4 (amended): decoding is chunk-boundary-invariant for ASCII streams:
when every byte of the stream is below `0x80`, any two chunkings with the same
joined bytes decode to the same first JSON-RPC object.  (The unrestricted
claim is false: each chunk is UTF-8-decoded separately with errors ignored, so
a boundary splitting a multi-byte character changes the decoded object; see
the counterexample.) -/
theorem claim_C4_ascii_chunk_invariance (loads : List Char → Option Json)
    (chunks1 chunks2 : List (List Nat))
    (ha : ∀ x ∈ chunks1.flatten, x < 128)
    (hj : chunks1.flatten = chunks2.flatten) :
    sseDecodeBytes loads chunks1 = sseDecodeBytes loads chunks2 := by
  have ha2 : ∀ x ∈ chunks2.flatten, x < 128 := hj ▸ ha
  rw [sseDecodeBytes, sseDecodeBytes,
    sseDecode_eq_all loads _ [] (by simp), sseDecode_eq_all loads _ [] (by simp),
    List.nil_append, List.nil_append,
    flatten_map_utf8_ascii chunks1 ha, flatten_map_utf8_ascii chunks2 ha2, hj]

/-- The ASCII part of C4's counterexample stream, before the two-byte
character. -/
def cexPrefixBytes : List Nat :=
  "data: \x7b\"jsonrpc\":\"2.0\",\"id\":1,\"result\":\"".data.map Char.toNat

/-- The ASCII part of C4's counterexample stream, after the two-byte
character. -/
def cexSuffixBytes : List Nat := "\"\x7d\n".data.map Char.toNat

/-- C4's stream as one chunk: the payload string holds the two-byte character
U+00E9 encoded as `0xC3 0xA9`. -/
def cexOneChunk : List (List Nat) := [cexPrefixBytes ++ [0xC3, 0xA9] ++ cexSuffixBytes]

/-- C4's stream split between the two bytes of U+00E9. -/
def cexSplitChunks : List (List Nat) :=
  [cexPrefixBytes ++ [0xC3], 0xA9 :: cexSuffixBytes]

/-- Counterexample to C4 as stated: the same byte stream, chunked at a
boundary inside a two-byte UTF-8 character, decodes to a different first
JSON-RPC object (`"result"` is `"\u00e9"` in one chunking and `""` in the
other), because each chunk is UTF-8-decoded separately with errors ignored. -/
theorem claim_C4_counterexample :
    cexOneChunk.flatten = cexSplitChunks.flatten ∧
    (sseDecodeBytes jsonLoads cexOneChunk).bind (fun j => jsonGet j "result") =
      some (Json.str "é") ∧
    (sseDecodeBytes jsonLoads cexSplitChunks).bind (fun j => jsonGet j "result") =
      some (Json.str "") ∧
    sseDecodeBytes jsonLoads cexOneChunk ≠ sseDecodeBytes jsonLoads cexSplitChunks := by
  refine ⟨by simp [cexOneChunk, cexSplitChunks], rfl, rfl, ?_⟩
  intro h
  have h1 : (sseDecodeBytes jsonLoads cexOneChunk).bind (fun j => jsonGet j "result") =
      some (Json.str "é") := rfl
  have h2 : (sseDecodeBytes jsonLoads cexSplitChunks).bind (fun j => jsonGet j "result") =
      some (Json.str "") := rfl
  rw [h, h2] at h1
  have h3 : Json.str "" = Json.str "é" := Option.some.inj h1
  have h4 : ("" : String) = "é" := by injection h3
  exact absurd h4 (by decide)

/-- Closed witness for C4 (amended): a concrete ASCII stream split two
different ways decodes to the same object. -/
theorem claim_C4_ascii_chunk_invariance_witness :
    sseDecodeBytes jsonLoads
        ["data: \x7b\"jsonrpc\":\"2.0\",\"id\":3\x7d\n".data.map Char.toNat] =
      sseDecodeBytes jsonLoads
        ["data: \x7b\"jsonrpc\"".data.map Char.toNat,
         ":\"2.0\",\"id\":3\x7d\n".data.map Char.toNat] := by
  exact claim_C4_ascii_chunk_invariance jsonLoads _ _ (by decide) (by decide)

/-- C10: the decode loop only examines newline-terminated lines.  If no
complete (newline-terminated) line of the stream qualifies, the decode is
exhausted — whatever text remains buffered after the last newline is never
parsed — and the gateway returns the decode-exhaustion error envelope with
HTTP 500. -/
theorem claim_C10_residue_never_parsed (loads : List Char → Option Json)
    (body : Json) (st stAcq st2 : Option String) (hs : Except String UpstreamResp)
    (r : UpstreamResp)
    (hobj : body.isObj = true)
    (hsp : sessionPhase (jsonGet body "method") hs st = (Except.ok stAcq, st2))
    (h2 : is2xx r.status = true) (h202 : r.status ≠ 202)
    (hnone : (splitLines (r.chunks.map utf8DecodeIgnore).flatten).1.findSome?
        (qualifyLine loads) = none) :
    sseDecodeBytes loads r.chunks = none ∧
    (handle_jsonrpc loads (Except.ok body) st hs (Except.ok r)).outcome =
      PyOutcome.response 500 (errEnvelope ((jsonGet body "id").getD Json.null) exhaustMsg) := by
  have hdec : sseDecodeBytes loads r.chunks = none := by
    rw [sseDecodeBytes, sseDecode_eq_all loads _ [] (by simp), List.nil_append,
      sseDecodeAll, hnone]
  refine ⟨hdec, ?_⟩
  simp [handle_jsonrpc, hobj, hsp, forwardPhase, h2, h202, hdec]

/-- The inbound id-9 request of C10's witness scenario. -/
def witnessInbound9 : Json :=
  Json.obj [("jsonrpc", Json.str "2.0"), ("id", Json.num 9),
    ("method", Json.str "tools/list"), ("params", Json.obj [])]

/-- C10's witness stream: a keep-alive line, then a data line that would
qualify but is never terminated by a newline before the stream closes. -/
def witnessChunks9 : List (List Nat) :=
  [": keep-alive\n".data.map Char.toNat,
   "data: \x7b\"jsonrpc\":\"2.0\",\"id\":9,\"result\":\x7b\x7d\x7d".data.map Char.toNat]

/-- Closed witness for C10: the unterminated final data line would qualify on
its own, yet the decode is exhausted and the gateway answers with the
decode-exhaustion envelope and HTTP 500. -/
theorem claim_C10_residue_never_parsed_witness :
    qualifyLine jsonLoads
        "data: \x7b\"jsonrpc\":\"2.0\",\"id\":9,\"result\":\x7b\x7d\x7d".data =
      some (Json.obj [("jsonrpc", Json.str "2.0"), ("id", Json.num 9),
        ("result", Json.obj [])]) ∧
    sseDecodeBytes jsonLoads witnessChunks9 = none ∧
    (handle_jsonrpc jsonLoads (Except.ok witnessInbound9) (some "sess-1")
        (Except.error "unused") (Except.ok ⟨200, none, witnessChunks9⟩)).outcome =
      PyOutcome.response 500 (errEnvelope (Json.num 9) exhaustMsg) := by
  refine ⟨rfl, ?_, ?_⟩
  · exact (claim_C10_residue_never_parsed jsonLoads witnessInbound9 (some "sess-1")
      (some "sess-1") (some "sess-1") (Except.error "unused")
      ⟨200, none, witnessChunks9⟩ rfl rfl rfl (by decide) rfl).1
  · exact (claim_C10_residue_never_parsed jsonLoads witnessInbound9 (some "sess-1")
      (some "sess-1") (some "sess-1") (Except.error "unused")
      ⟨200, none, witnessChunks9⟩ rfl rfl rfl (by decide) rfl).2

/-- C5: a 202 upstream answer makes the gateway return HTTP 200 with the
envelope `\x7b"jsonrpc":"2.0","id":<inbound id>,"result":\x7b\x7d\x7d`
immediately, and the result does not depend on the response body chunks (they
are never read). -/
theorem claim_C5_notification_ack (loads : List Char → Option Json)
    (body : Json) (st stAcq st2 : Option String) (hs : Except String UpstreamResp)
    (hdr : Option String) (chunks : List (List Nat))
    (hobj : body.isObj = true)
    (hsp : sessionPhase (jsonGet body "method") hs st = (Except.ok stAcq, st2)) :
    (handle_jsonrpc loads (Except.ok body) st hs (Except.ok ⟨202, hdr, chunks⟩)).outcome =
      PyOutcome.response 200 (okEnvelope ((jsonGet body "id").getD Json.null) (Json.obj [])) ∧
    (∀ chunks2 : List (List Nat),
      handle_jsonrpc loads (Except.ok body) st hs (Except.ok ⟨202, hdr, chunks2⟩) =
        handle_jsonrpc loads (Except.ok body) st hs (Except.ok ⟨202, hdr, chunks⟩)) := by
  constructor
  · simp [handle_jsonrpc, hobj, hsp, forwardPhase, is2xx]
  · intro chunks2
    simp [handle_jsonrpc, hobj, hsp, forwardPhase, is2xx]

/-- Closed witness for C5: a notification-shaped inbound call acknowledged by
a 202 yields the empty-result ack, identically for two different bodies. -/
theorem claim_C5_notification_ack_witness :
    (handle_jsonrpc jsonLoads
        (Except.ok (Json.obj [("jsonrpc", Json.str "2.0"),
          ("method", Json.str "notifications/initialized")]))
        (some "sess-1") (Except.error "unused")
        (Except.ok ⟨202, none, [[0x64, 0x61, 0x74, 0x61]]⟩)).outcome =
      PyOutcome.response 200 (okEnvelope Json.null (Json.obj [])) ∧
    handle_jsonrpc jsonLoads
        (Except.ok (Json.obj [("jsonrpc", Json.str "2.0"),
          ("method", Json.str "notifications/initialized")]))
        (some "sess-1") (Except.error "unused") (Except.ok ⟨202, none, []⟩) =
      handle_jsonrpc jsonLoads
        (Except.ok (Json.obj [("jsonrpc", Json.str "2.0"),
          ("method", Json.str "notifications/initialized")]))
        (some "sess-1") (Except.error "unused")
        (Except.ok ⟨202, none, [[0x64, 0x61, 0x74, 0x61]]⟩) := by
  constructor
  · exact (claim_C5_notification_ack jsonLoads
      (Json.obj [("jsonrpc", Json.str "2.0"),
        ("method", Json.str "notifications/initialized")])
      (some "sess-1") (some "sess-1") (some "sess-1") (Except.error "unused")
      none [[0x64, 0x61, 0x74, 0x61]] rfl rfl).1
  · exact (claim_C5_notification_ack jsonLoads
      (Json.obj [("jsonrpc", Json.str "2.0"),
        ("method", Json.str "notifications/initialized")])
      (some "sess-1") (some "sess-1") (some "sess-1") (Except.error "unused")
      none [[0x64, 0x61, 0x74, 0x61]] rfl rfl).2 []

/-- C6: a 2xx (non-202) upstream response whose stream ends without a
qualifying JSON-RPC object makes the gateway return a `-32603` error envelope
with the inbound id and HTTP 500, whose message differs from every
upstream-status failure message and every transport failure message. -/
theorem claim_C6_decode_exhaustion (loads : List Char → Option Json)
    (body : Json) (st stAcq st2 : Option String) (hs : Except String UpstreamResp)
    (r : UpstreamResp)
    (hobj : body.isObj = true)
    (hsp : sessionPhase (jsonGet body "method") hs st = (Except.ok stAcq, st2))
    (h2 : is2xx r.status = true) (h202 : r.status ≠ 202)
    (hnone : sseDecodeBytes loads r.chunks = none) :
    (handle_jsonrpc loads (Except.ok body) st hs (Except.ok r)).outcome =
      PyOutcome.response 500
        (errEnvelope ((jsonGet body "id").getD Json.null) exhaustMsg) ∧
    (∀ m : String, exhaustMsg ≠ "FastMCP server error: " ++ m) ∧
    (∀ m : String, exhaustMsg ≠ "Internal error: " ++ m) := by
  refine ⟨?_, exhaustMsg_ne_status, exhaustMsg_ne_internal⟩
  simp [handle_jsonrpc, hobj, hsp, forwardPhase, h2, h202, hnone]

/-- Closed witness for C6: a stream of keep-alive comment lines only. -/
theorem claim_C6_decode_exhaustion_witness :
    (handle_jsonrpc jsonLoads (Except.ok witnessInbound9) (some "sess-1")
        (Except.error "unused")
        (Except.ok ⟨200, none, [": keep-alive\n: keep-alive\n".data.map Char.toNat]⟩)).outcome =
      PyOutcome.response 500 (errEnvelope (Json.num 9) exhaustMsg) ∧
    exhaustMsg ≠ "FastMCP server error: " ++ statusErrMsg 404 ∧
    exhaustMsg ≠ "Internal error: " ++ "timeout" := by
  have h := claim_C6_decode_exhaustion jsonLoads witnessInbound9 (some "sess-1")
    (some "sess-1") (some "sess-1") (Except.error "unused")
    ⟨200, none, [": keep-alive\n: keep-alive\n".data.map Char.toNat]⟩
    rfl rfl rfl (by decide) rfl
  exact ⟨h.1, h.2.1 (statusErrMsg 404), h.2.2 "timeout"⟩

/-- The forwarded call's session header is determined by the acquired session
state. -/
theorem handle_header_eq (loads : List Char → Option Json) (body : Json)
    (st stAcq st2 : Option String) (hs ms : Except String UpstreamResp)
    (hobj : body.isObj = true)
    (hsp : sessionPhase (jsonGet body "method") hs st = (Except.ok stAcq, st2)) :
    (handle_jsonrpc loads (Except.ok body) st hs ms).forwardedHeader =
      some (sessionHeaderOf stAcq) := by
  simp [handle_jsonrpc, hobj, hsp, forwardPhase_header]

/-- C8: the current session token, when one exists (tokens are never empty in
reachable states), is attached as the `mcp-session-id` header of the forwarded
upstream call — including a forwarded non-initial `initialize`; in particular,
for a non-"initialize" method the forwarded call carries exactly the token
`get_or_create_session` produced. -/
theorem claim_C8_outbound_header (loads : List Char → Option Json) (body : Json)
    (st st2 : Option String) (hs ms : Except String UpstreamResp) (tok : String)
    (hobj : body.isObj = true) :
    (sessionPhase (jsonGet body "method") hs st = (Except.ok (some tok), st2) →
      tok ≠ "" →
      (handle_jsonrpc loads (Except.ok body) st hs ms).forwardedHeader =
        some (some tok)) ∧
    (isInit (jsonGet body "method") = false →
      (st = none ∨ (st = some tok ∧ tok ≠ "")) →
      ∀ (st3 : Option String) (p : Bool),
        get_or_create_session hs st = (Except.ok tok, st3, p) →
        tok ≠ "" ∧
        (handle_jsonrpc loads (Except.ok body) st hs ms).forwardedHeader =
          some (some tok)) := by
  constructor
  · intro hsp htok
    rw [handle_header_eq loads body st (some tok) st2 hs ms hobj hsp]
    simp [sessionHeaderOf, htok]
  · intro hninit hreach st3 p hget
    have htok : tok ≠ "" := by
      rcases hreach with hnone | ⟨hsome, hne⟩
      · subst hnone
        rcases hs with e | r
        · simp [get_or_create_session] at hget
        · by_cases h2 : is2xx r.status
          · rw [get_or_create_fresh r h2] at hget
            simp only [Prod.mk.injEq, Except.ok.injEq] at hget
            rw [← hget.1]
            exact tokenFromResp_ne_empty r
          · simp [get_or_create_session, h2] at hget
      · exact hne
    have hst3 : st3 = some tok := get_or_create_ok_state hs st tok st3 p hget
    have hsp : sessionPhase (jsonGet body "method") hs st = (Except.ok (some tok), some tok) := by
      rw [sessionPhase, if_neg (by simp [hninit]), hget, hst3]
    refine ⟨htok, ?_⟩
    rw [handle_header_eq loads body st (some tok) (some tok) hs ms hobj hsp]
    simp [sessionHeaderOf, htok]

/-- Closed witness for C8: a `tools/list` call starting with no session
acquires `"sess-9"` from the handshake and forwards it as the header, and a
forwarded client `initialize` with an already-set token also carries it. -/
theorem claim_C8_outbound_header_witness :
    (handle_jsonrpc jsonLoads
        (Except.ok (Json.obj [("jsonrpc", Json.str "2.0"), ("id", Json.num 2),
          ("method", Json.str "tools/list")]))
        none (Except.ok ⟨200, some "sess-9", []⟩)
        (Except.error "unused")).forwardedHeader = some (some "sess-9") ∧
    (handle_jsonrpc jsonLoads
        (Except.ok (Json.obj [("jsonrpc", Json.str "2.0"), ("id", Json.num 0),
          ("method", Json.str "initialize")]))
        (some "sess-1") (Except.error "unused")
        (Except.error "unused")).forwardedHeader = some (some "sess-1") := by
  constructor
  · exact ((claim_C8_outbound_header jsonLoads
      (Json.obj [("jsonrpc", Json.str "2.0"), ("id", Json.num 2),
        ("method", Json.str "tools/list")])
      none none (Except.ok ⟨200, some "sess-9", []⟩) (Except.error "unused")
      "sess-9" rfl).2 rfl (Or.inl rfl) (some "sess-9") true rfl).2
  · exact (claim_C8_outbound_header jsonLoads
      (Json.obj [("jsonrpc", Json.str "2.0"), ("id", Json.num 0),
        ("method", Json.str "initialize")])
      (some "sess-1") (some "sess-1") (Except.error "unused") (Except.error "unused")
      "sess-1" rfl).1 rfl (by decide)

/-- C9 (amended): the session is created lazily by the first inbound call
whose method is not "initialize" — a successful `get_or_create_session` leaves
the token set to the returned value and it never changes afterwards — but
handling an inbound "initialize" merely forwards it and leaves the stored
token unchanged (in particular still unset).  (The original claim is false:
the gateway never stores a token while handling an inbound "initialize"; see
the counterexample.) -/
theorem claim_C9_lazy_creation (loads : List Char → Option Json) (body : Json)
    (st : Option String) (hs ms : Except String UpstreamResp)
    (hobj : body.isObj = true) :
    (isInit (jsonGet body "method") = true →
      (handle_jsonrpc loads (Except.ok body) st hs ms).finalSession = st) ∧
    (∀ (tok : String) (st2 : Option String) (p : Bool),
      isInit (jsonGet body "method") = false →
      get_or_create_session hs st = (Except.ok tok, st2, p) →
      (handle_jsonrpc loads (Except.ok body) st hs ms).finalSession = some tok) ∧
    (∀ (tok : String) (hs2 : Except String UpstreamResp),
      get_or_create_session hs2 (some tok) = (Except.ok tok, some tok, false)) := by
  refine ⟨?_, ?_, fun tok hs2 => rfl⟩
  · intro hinit
    have hsp : sessionPhase (jsonGet body "method") hs st = (Except.ok st, st) := by
      rw [sessionPhase, if_pos hinit]
    simp [handle_jsonrpc, hobj, hsp, forwardPhase_finalSession]
  · intro tok st2 p hninit hget
    have hst2 : st2 = some tok := get_or_create_ok_state hs st tok st2 p hget
    have hsp : sessionPhase (jsonGet body "method") hs st =
        (Except.ok (some tok), some tok) := by
      rw [sessionPhase, if_neg (by simp [hninit]), hget, hst2]
    simp [handle_jsonrpc, hobj, hsp, forwardPhase_finalSession]

/-- The inbound client `initialize` request of C9's counterexample. -/
def initializeInbound : Json :=
  Json.obj [("jsonrpc", Json.str "2.0"), ("id", Json.num 0),
    ("method", Json.str "initialize"), ("params", Json.obj [])]

/-- The upstream answer to C9's forwarded `initialize`: success, with a
session header the gateway never reads on this path. -/
def initializeResp : UpstreamResp :=
  ⟨200, some "sess-upstream",
   ["data: \x7b\"jsonrpc\":\"2.0\",\"id\":0,\"result\":\x7b\x7d\x7d\n".data.map Char.toNat]⟩

/-- Counterexample to C9 as stated: the gateway successfully handles an
inbound `initialize` (HTTP 200 with the upstream's result) yet the stored
session token is still unset afterwards — the forwarded `initialize` does not
create the bridge's session. -/
theorem claim_C9_counterexample :
    (handle_jsonrpc jsonLoads (Except.ok initializeInbound) none
        (Except.error "unused") (Except.ok initializeResp)).outcome =
      PyOutcome.response 200 (Json.obj [("jsonrpc", Json.str "2.0"),
        ("id", Json.num 0), ("result", Json.obj [])]) ∧
    (handle_jsonrpc jsonLoads (Except.ok initializeInbound) none
        (Except.error "unused") (Except.ok initializeResp)).finalSession = none :=
  ⟨rfl, rfl⟩

/-- Closed witness for C9 (amended): an inbound `initialize` leaves the token
untouched, and a first non-initialize call sets it to the handshake token. -/
theorem claim_C9_lazy_creation_witness :
    (handle_jsonrpc jsonLoads (Except.ok initializeInbound) none
        (Except.error "unused") (Except.ok initializeResp)).finalSession = none ∧
    (handle_jsonrpc jsonLoads
        (Except.ok (Json.obj [("jsonrpc", Json.str "2.0"), ("id", Json.num 2),
          ("method", Json.str "tools/list")]))
        none (Except.ok ⟨200, some "sess-2", []⟩)
        (Except.error "unused")).finalSession = some "sess-2" := by
  constructor
  · exact (claim_C9_lazy_creation jsonLoads initializeInbound none
      (Except.error "unused") (Except.ok initializeResp) rfl).1 rfl
  · exact (claim_C9_lazy_creation jsonLoads
      (Json.obj [("jsonrpc", Json.str "2.0"), ("id", Json.num 2),
        ("method", Json.str "tools/list")])
      none (Except.ok ⟨200, some "sess-2", []⟩) (Except.error "unused") rfl).2.1
      "sess-2" (some "sess-2") true rfl rfl

/-- C2 (amended): for every inbound request whose body either fails to parse
as JSON or parses to a JSON dict, `handle_jsonrpc` returns an HTTP response
and never lets an exception escape: on any internal failure the response is
HTTP 500 with the gateway's code `-32603` error envelope carrying the inbound
id when parseable (else `null`); on success the response is HTTP 200 carrying
either the notification-ack envelope or the upstream's decoded JSON-RPC
object.  (The unrestricted claim is false: a body that is valid JSON but not a
dict makes the `except` handler itself raise `AttributeError`, which escapes
to the transport layer; see the counterexample.) -/
theorem claim_C2_envelope_totality (loads : List Char → Option Json)
    (inbound : Except String Json) (st : Option String)
    (hs ms : Except String UpstreamResp)
    (h : ∀ b : Json, inbound = Except.ok b → b.isObj = true) :
    ∃ (code : Nat) (out : Json),
      (handle_jsonrpc loads inbound st hs ms).outcome = PyOutcome.response code out ∧
      ((code = 500 ∧ ∃ msg : String, out = errEnvelope (inboundIdJson inbound) msg) ∨
       (code = 200 ∧ (out = okEnvelope (inboundIdJson inbound) (Json.obj []) ∨
         isJsonRpcDict out = true))) := by
  rcases inbound with e | body
  · exact ⟨500, _, rfl, Or.inl ⟨rfl, "Internal error: " ++ e, rfl⟩⟩
  · have hobj := h body rfl
    rcases hsp : sessionPhase (jsonGet body "method") hs st with ⟨res, st2⟩
    rcases res with ex | stAcq
    · rcases ex with m | m
      · refine ⟨500, _, ?_, Or.inl ⟨rfl, "FastMCP server error: " ++ m, rfl⟩⟩
        simp [handle_jsonrpc, hobj, hsp, exnResponse, inboundIdJson]
      · refine ⟨500, _, ?_, Or.inl ⟨rfl, "Internal error: " ++ m, rfl⟩⟩
        simp [handle_jsonrpc, hobj, hsp, exnResponse, inboundIdJson]
    · rcases ms with e | r
      · refine ⟨500, _, ?_, Or.inl ⟨rfl, "Internal error: " ++ e, rfl⟩⟩
        simp [handle_jsonrpc, hobj, hsp, forwardPhase, inboundIdJson]
      · by_cases h2 : is2xx r.status
        · by_cases h202 : r.status = 202
          · refine ⟨200, _, ?_, Or.inr ⟨rfl, Or.inl rfl⟩⟩
            simp [handle_jsonrpc, hobj, hsp, forwardPhase, h2, h202, inboundIdJson,
              is2xx]
          · rcases hdec : sseDecodeBytes loads r.chunks with - | v
            · refine ⟨500, _, ?_, Or.inl ⟨rfl, exhaustMsg, rfl⟩⟩
              simp [handle_jsonrpc, hobj, hsp, forwardPhase, h2, h202, hdec,
                inboundIdJson]
            · refine ⟨200, v, ?_, Or.inr ⟨rfl, Or.inr ?_⟩⟩
              · simp [handle_jsonrpc, hobj, hsp, forwardPhase, h2, h202, hdec]
              · exact sseDecode_sound loads (r.chunks.map utf8DecodeIgnore) [] v hdec
        · refine ⟨500, _, ?_,
            Or.inl ⟨rfl, "FastMCP server error: " ++ statusErrMsg r.status, rfl⟩⟩
          simp [handle_jsonrpc, hobj, hsp, forwardPhase, h2, exnResponse, inboundIdJson]

/-- Counterexample to C2 as stated: the body `42` is valid JSON, but handling
it raises: `body.get("method")` raises `AttributeError`, and the generic
`except` handler evaluates `body.get("id")`, raising again — the exception
escapes `handle_jsonrpc` instead of becoming a JSON-RPC envelope. -/
theorem claim_C2_counterexample :
    jsonLoads "42".data = some (Json.num 42) ∧
    (handle_jsonrpc jsonLoads (Except.ok (Json.num 42)) none (Except.error "unused")
        (Except.error "unused")).outcome = PyOutcome.raised pyAttrErrMsg :=
  ⟨rfl, rfl⟩

/-- Closed witness for C2 (amended): an unparseable inbound body still gets a
JSON-RPC response envelope. -/
theorem claim_C2_envelope_totality_witness :
    ∃ (code : Nat) (out : Json),
      (handle_jsonrpc jsonLoads (Except.error "Expecting value") none
          (Except.error "unused") (Except.error "unused")).outcome =
        PyOutcome.response code out ∧
      ((code = 500 ∧ ∃ msg : String,
          out = errEnvelope (inboundIdJson (Except.error "Expecting value")) msg) ∨
       (code = 200 ∧
         (out = okEnvelope (inboundIdJson (Except.error "Expecting value"))
            (Json.obj []) ∨ isJsonRpcDict out = true))) :=
  claim_C2_envelope_totality jsonLoads (Except.error "Expecting value") none
    (Except.error "unused") (Except.error "unused") (fun b hb => by cases hb)

end MCPBridge
